import Mathlib

/-!
# Verification of the blur-windows boundary layer

Shallow embedding of the two variants of the resource-lifecycle layer of the
`blur-windows` repository:

* `blur-windows-rs/src/safe.rs` — the library wrappers `BlurSystem` and
  `BlurWindow` over the native C ABI declared in `blur-windows-rs/src/lib.rs`;
* `demos/tauri_demo/src-tauri/src/lib.rs` — the shared-guard shell variant
  (`BlurState` plus the command handlers `start_blur`, `stop_blur`,
  `update_blur_parameters`, `update_noise_parameters`,
  `update_rain_parameters`, `get_blur_fps`).

The native engine is modelled as an oracle (`NativeOracle`) giving the
response of each native entry point; every embedded operation returns its
result together with the list of native calls it issued (`NativeCall`),
so that claims about error propagation and about which native calls are
made can be stated and proved.  Raw pointers are modelled as `Nat` with
`0` standing for the null pointer; `f32` values that the layer only
carries across the boundary (never inspects) are modelled as opaque bit
patterns (`F32`).
-/

/-- An `f32` value carried opaquely across the ABI boundary (the layer never
computes with these, it only forwards them), modelled by its bit pattern. -/
structure F32 where
  bits : Nat
deriving DecidableEq, Repr

/-- The zero float returned by `get_blur_fps` when no window exists
(`demos/tauri_demo/src-tauri/src/lib.rs:190`). -/
def f32zero : F32 := ⟨0⟩

/-- `BlurQualityPreset` from `blur-windows-rs/src/lib.rs:16` (`#[repr(i32)]`,
High = 0, Balanced = 1, Performance = 2, Minimal = 3). -/
inductive BlurQualityPreset where
  | high
  | balanced
  | performance
  | minimal
deriving DecidableEq, Repr

/-- The `i32` wire ordinal of a preset (`blur-windows-rs/src/lib.rs:17-20`). -/
def BlurQualityPreset.toOrdinal : BlurQualityPreset → Int
  | .high => 0
  | .balanced => 1
  | .performance => 2
  | .minimal => 3

/-- `BlurErrorCode` from `blur-windows-rs/src/lib.rs:25` (`#[repr(i32)]`). -/
inductive BlurErrorCode where
  | ok
  | notInitialized
  | invalidHandle
  | invalidParameter
  | d3d11Failed
  | captureFailed
  | unknown
deriving DecidableEq, Repr

/-- The `i32` wire value of an error code (`blur-windows-rs/src/lib.rs:26-32`). -/
def BlurErrorCode.toWire : BlurErrorCode → Int
  | .ok => 0
  | .notInitialized => -1
  | .invalidHandle => -2
  | .invalidParameter => -3
  | .d3d11Failed => -4
  | .captureFailed => -5
  | .unknown => -99

/-- `BlurRect` from `blur-windows-rs/src/lib.rs:36`. -/
structure BlurRect where
  left : Int
  top : Int
  right : Int
  bottom : Int
deriving DecidableEq, Repr

/-- `BlurSystemOptionsC` from `blur-windows-rs/src/lib.rs:44`: logging flag as
an `i32`, a nullable log path (the pointed-to bytes, `none` = NULL = console
sink), and the default preset as its `i32` ordinal. -/
structure BlurSystemOptionsC where
  enable_logging : Int
  log_path : Option (List Nat)
  default_preset : Int
deriving DecidableEq, Repr

/-- `BlurWindowOptionsC` from `blur-windows-rs/src/lib.rs:51`: owner window
pointer (0 = null), bounds, and the two flag `i32`s. -/
structure BlurWindowOptionsC where
  owner : Nat
  bounds : BlurRect
  top_most : Int
  click_through : Int
deriving DecidableEq, Repr

/-- One native entry-point invocation, recording the entry point and the
exact argument values passed across the ABI (`blur-windows-rs/src/lib.rs:59-76`
and the `extern` block of `demos/tauri_demo/src-tauri/src/lib.rs:27-55`). -/
inductive NativeCall where
  | init (opts : BlurSystemOptionsC)
  | shutdown (sys : Nat)
  | createWindow (sys : Nat) (owner : Nat) (opts : BlurWindowOptionsC)
  | destroyWindow (window : Nat)
  | start (window : Nat)
  | stop (window : Nat)
  | setPreset (window : Nat) (preset : BlurQualityPreset)
  | setPipeline (window : Nat) (jsonBytes : List Nat)
  | setBounds (window : Nat) (bounds : BlurRect)
  | getFps (window : Nat)
  | getLastError
  | setEffectType (window : Nat) (effectType : Int)
  | setStrength (window : Nat) (strength : F32)
  | setBlurParam (window : Nat) (param : F32)
  | setTintColor (window : Nat) (r g b a : F32)
  | setNoiseIntensity (window : Nat) (v : F32)
  | setNoiseScale (window : Nat) (v : F32)
  | setNoiseSpeed (window : Nat) (v : F32)
  | setNoiseType (window : Nat) (t : Int)
  | setRainIntensity (window : Nat) (v : F32)
  | setRainDropSpeed (window : Nat) (v : F32)
  | setRainRefraction (window : Nat) (v : F32)
  | setRainTrailLength (window : Nat) (v : F32)
  | setRainDropSize (window : Nat) (minSize maxSize : F32)
deriving DecidableEq, Repr

/-- The native engine modelled as an oracle: the value each native entry
point returns when invoked.  Handles are `Nat` with `0` = null pointer. -/
structure NativeOracle where
  initResult : Nat
  lastError : Option String
  createWindowResult : Nat
  startCode : BlurErrorCode
  stopCode : BlurErrorCode
  setPresetCode : BlurErrorCode
  setPipelineCode : BlurErrorCode
  setEffectTypeCode : BlurErrorCode
  setStrengthCode : BlurErrorCode
  setBlurParamCode : BlurErrorCode
  setTintColorCode : BlurErrorCode
  setNoiseCode : BlurErrorCode
  setRainCode : BlurErrorCode
  fpsValue : F32
deriving DecidableEq, Repr

/-! ## Library layer: `blur-windows-rs/src/safe.rs` -/

/-- `BlurSystem` (`safe.rs:6`): owns the native system handle. -/
structure BlurSystem where
  handle : Nat
deriving DecidableEq, Repr

/-- `BlurWindow` (`safe.rs:58`): owns the native window handle. -/
structure BlurWindow where
  handle : Nat
deriving DecidableEq, Repr

/-- The hard-coded options built inside `BlurSystem::new` (`safe.rs:12-16`):
logging enabled, NULL log path, Balanced preset. -/
def safeSysOpts : BlurSystemOptionsC :=
  { enable_logging := 1, log_path := none, default_preset := BlurQualityPreset.balanced.toOrdinal }

/-- `BlurSystem::new` (`safe.rs:11-30`): calls `blur_init` with the fixed
options; on a null handle it queries `blur_get_last_error` and fails with
that string if present, with a generic message otherwise; on a non-null
handle it succeeds wrapping the handle.  Returns (result, native calls). -/
def BlurSystem.new (o : NativeOracle) : Except String BlurSystem × List NativeCall :=
  let handle := o.initResult
  if handle = 0 then
    match o.lastError with
    | some s => (.error s, [.init safeSysOpts, .getLastError])
    | none => (.error "Failed to initialize blur system", [.init safeSysOpts, .getLastError])
  else
    (.ok ⟨handle⟩, [.init safeSysOpts])

/-- `BlurSystem::create_window` (`safe.rs:32-47`): builds the window options
(top_most = 1, click_through = 1, bounds from x/y/w/h) and calls
`blur_create_window`; fails on a null result, else wraps the handle. -/
def BlurSystem.create_window (o : NativeOracle) (sys : BlurSystem)
    (owner : Nat) (x y w h : Int) : Except String BlurWindow × List NativeCall :=
  let opts : BlurWindowOptionsC :=
    { owner := owner
      bounds := { left := x, top := y, right := x + w, bottom := y + h }
      top_most := 1, click_through := 1 }
  let winHandle := o.createWindowResult
  if winHandle = 0 then
    (.error "Failed to create blur window", [.createWindow sys.handle owner opts])
  else
    (.ok ⟨winHandle⟩, [.createWindow sys.handle owner opts])

/-- `BlurWindow::start` (`safe.rs:63-66`): one unconditional native call;
`Ok` exactly when the native code is `Ok`, otherwise the code is returned. -/
def BlurWindow.start (o : NativeOracle) (w : BlurWindow) :
    Except BlurErrorCode Unit × List NativeCall :=
  let code := o.startCode
  (if code = .ok then .ok () else .error code, [.start w.handle])

/-- `BlurWindow::stop` (`safe.rs:68-71`). -/
def BlurWindow.stop (o : NativeOracle) (w : BlurWindow) :
    Except BlurErrorCode Unit × List NativeCall :=
  let code := o.stopCode
  (if code = .ok then .ok () else .error code, [.stop w.handle])

/-- `BlurWindow::set_preset` (`safe.rs:73-76`). -/
def BlurWindow.set_preset (o : NativeOracle) (w : BlurWindow) (p : BlurQualityPreset) :
    Except BlurErrorCode Unit × List NativeCall :=
  let code := o.setPresetCode
  (if code = .ok then .ok () else .error code, [.setPreset w.handle p])

/-- `BlurWindow::set_pipeline` (`safe.rs:78-82`): `CString::new` fails on an
embedded NUL byte, mapped to `InvalidParameter` before any native call;
otherwise one native call whose code is propagated. -/
def BlurWindow.set_pipeline (o : NativeOracle) (w : BlurWindow) (jsonBytes : List Nat) :
    Except BlurErrorCode Unit × List NativeCall :=
  if jsonBytes.contains 0 then
    (.error .invalidParameter, [])
  else
    let code := o.setPipelineCode
    (if code = .ok then .ok () else .error code, [.setPipeline w.handle jsonBytes])

/-- `BlurWindow::get_fps` (`safe.rs:84-86`): an infallible query, one
unconditional native call. -/
def BlurWindow.get_fps (o : NativeOracle) (w : BlurWindow) : F32 × List NativeCall :=
  (o.fpsValue, [.getFps w.handle])

/-- `Drop for BlurWindow` (`safe.rs:89-95`): unconditional destroy. -/
def BlurWindow.drop (w : BlurWindow) : List NativeCall :=
  [.destroyWindow w.handle]

/-- `Drop for BlurSystem` (`safe.rs:50-56`): unconditional shutdown. -/
def BlurSystem.drop (s : BlurSystem) : List NativeCall :=
  [.shutdown s.handle]

/-! ## Shell variant: `demos/tauri_demo/src-tauri/src/lib.rs`

`BlurState` holds two separate `Mutex`-guarded slots (`lib.rs:57-60`); the
command handlers below read and write them.  Each handler is embedded as a
pure function from the oracle and the slot state to its result, the new
slot state, and the list of native calls it issued.  Mutex acquisition
itself is modelled separately (see `LockLayout` below); here the state
passed in is the state observed once the handler holds its locks. -/

/-- The two slots of `BlurState` (`lib.rs:57-60`): `sys` and `window`, each
an `Option` of a raw pointer (`Nat`, `0` = null). -/
structure DemoState where
  sys : Option Nat
  window : Option Nat
deriving DecidableEq, Repr

/-- The hard-coded system options built inside `start_blur` (`lib.rs:76-80`):
logging on, NULL path, preset ordinal 0. -/
def demoSysOpts : BlurSystemOptionsC :=
  { enable_logging := 1, log_path := none, default_preset := 0 }

/-- The hard-coded window options built inside `start_blur` (`lib.rs:89-99`):
null owner, bounds (100,100,600,500), top_most = 1, click_through = 0. -/
def demoWinOpts : BlurWindowOptionsC :=
  { owner := 0
    bounds := { left := 100, top := 100, right := 600, bottom := 500 }
    top_most := 1, click_through := 0 }

/-- The native calls made for the optional effect selector inside
`start_blur` (`lib.rs:107-109`). -/
def effectCalls (w : Nat) : Option Int → List NativeCall
  | some t => [.setEffectType w t]
  | none => []

/-- The window-creation phase of `start_blur` (`lib.rs:88-115`), entered
once a system handle `sys` is at hand: one `blur_create_window` call; on a
non-null result, `blur_start` (return code discarded), the optional
`blur_set_effect_type` (code discarded), store the window and succeed;
on null, fail.  `t` is the trace accumulated by the system phase. -/
def startBlurCreate (o : NativeOracle) (st : DemoState) (sys : Nat)
    (effectType : Option Int) (t : List NativeCall) :
    Except String Unit × DemoState × List NativeCall :=
  let w := o.createWindowResult
  if w = 0 then
    (.error "Failed to create blur window", st, t ++ [.createWindow sys 0 demoWinOpts])
  else
    (.ok (), { st with window := some w },
      t ++ [.createWindow sys 0 demoWinOpts, .start w] ++ effectCalls w effectType)

/-- `start_blur` (`lib.rs:65-117`): with both locks held — if the window
slot is occupied, succeed at once with no native call; otherwise lazily
`blur_init` (storing the system handle only if non-null, failing if null),
then create and start the window via `startBlurCreate`. -/
def start_blur (o : NativeOracle) (st : DemoState) (effectType : Option Int) :
    Except String Unit × DemoState × List NativeCall :=
  match st.window with
  | some _ => (.ok (), st, [])
  | none =>
    match st.sys with
    | some sys => startBlurCreate o st sys effectType []
    | none =>
      let sys := o.initResult
      if sys = 0 then
        (.error "Failed to initialize blur system", st, [.init demoSysOpts])
      else
        startBlurCreate o { st with sys := some sys } sys effectType [.init demoSysOpts]

/-- `stop_blur` (`lib.rs:119-128`): `take` the window slot; if it held a
window, `blur_stop` (code discarded) then `blur_destroy_window`; the slot
is left empty regardless.  If it was empty, nothing happens.  The handler
returns unit, so no native outcome can be surfaced. -/
def stop_blur (st : DemoState) : DemoState × List NativeCall :=
  match st.window with
  | some w => ({ st with window := none }, [.stop w, .destroyWindow w])
  | none => (st, [])

/-- A native call made iff the optional payload is supplied — the shape of
every `if let Some(x) = field { native_setter(window, x); }` block in the
update handlers. -/
def optCall {α : Type} (v : Option α) (mk : α → NativeCall) : List NativeCall :=
  match v with
  | some x => [mk x]
  | none => []

/-- `update_blur_parameters` (`lib.rs:130-155`): with the window lock held,
if a window exists apply each supplied field through its native setter
(every return code discarded, handler returns unit); otherwise do nothing. -/
def update_blur_parameters (st : DemoState) (effectType : Option Int)
    (strength : Option F32) (param : Option F32)
    (color : Option (F32 × F32 × F32 × F32)) : DemoState × List NativeCall :=
  match st.window with
  | some w =>
    (st,
      optCall effectType (.setEffectType w) ++
      optCall strength (.setStrength w) ++
      optCall param (.setBlurParam w) ++
      optCall color (fun c => .setTintColor w c.1 c.2.1 c.2.2.1 c.2.2.2))
  | none => (st, [])

/-- `update_noise_parameters` (`lib.rs:157-182`). -/
def update_noise_parameters (st : DemoState) (intensity : Option F32)
    (scale : Option F32) (speed : Option F32) (noiseType : Option Int) :
    DemoState × List NativeCall :=
  match st.window with
  | some w =>
    (st,
      optCall intensity (.setNoiseIntensity w) ++
      optCall scale (.setNoiseScale w) ++
      optCall speed (.setNoiseSpeed w) ++
      optCall noiseType (.setNoiseType w))
  | none => (st, [])

/-- `get_blur_fps` (`lib.rs:184-192`): returns the native fps if a window
exists, `0.0` otherwise; never an error. -/
def get_blur_fps (o : NativeOracle) (st : DemoState) : F32 × List NativeCall :=
  match st.window with
  | some w => (o.fpsValue, [.getFps w])
  | none => (f32zero, [])

/-- `update_rain_parameters` (`lib.rs:194-224`): each of intensity,
drop speed, refraction and trail length is applied independently when
supplied; the drop-size setter takes both bounds in one native call and is
invoked only when `min_size` and `max_size` are both supplied
(`if let (Some(min), Some(max)) = (min_size, max_size)`, `lib.rs:219-221`). -/
def update_rain_parameters (st : DemoState) (intensity dropSpeed refraction trailLength minSize maxSize : Option F32) :
    DemoState × List NativeCall :=
  match st.window with
  | some w =>
    (st,
      optCall intensity (.setRainIntensity w) ++
      optCall dropSpeed (.setRainDropSpeed w) ++
      optCall refraction (.setRainRefraction w) ++
      optCall trailLength (.setRainTrailLength w) ++
      (match minSize, maxSize with
        | some mn, some mx => [.setRainDropSize w mn mx]
        | _, _ => []))
  | none => (st, [])

/-! ## Commands and the state they leave behind (for the slot invariant) -/

/-- The six command handlers registered in `run()` (`lib.rs:234-241`),
with the arguments each takes. -/
inductive DemoCommand where
  | startBlur (effectType : Option Int)
  | stopBlur
  | updateBlurParameters (effectType : Option Int) (strength param : Option F32)
      (color : Option (F32 × F32 × F32 × F32))
  | updateNoiseParameters (intensity scale speed : Option F32) (noiseType : Option Int)
  | updateRainParameters (intensity dropSpeed refraction trailLength minSize maxSize : Option F32)
  | getBlurFps
deriving DecidableEq

/-- The slot state a command leaves behind. -/
def demoStep (o : NativeOracle) (st : DemoState) : DemoCommand → DemoState
  | .startBlur et => (start_blur o st et).2.1
  | .stopBlur => (stop_blur st).1
  | .updateBlurParameters et s p c => (update_blur_parameters st et s p c).1
  | .updateNoiseParameters i s sp t => (update_noise_parameters st i s sp t).1
  | .updateRainParameters i ds r tl mn mx => (update_rain_parameters st i ds r tl mn mx).1
  | .getBlurFps => st

/-- A slot is well formed when it is empty or holds a non-null pointer. -/
def slotInv (s : Option Nat) : Prop := ∀ h, s = some h → h ≠ 0

/-- Both slots of the shared state are empty or hold non-null pointers. -/
def stateInv (st : DemoState) : Prop := slotInv st.sys ∧ slotInv st.window

/-! ## Lock layout of the shared state

`BlurState` (`lib.rs:57-60`) declares `sys: Mutex<Option<…>>` and
`window: Mutex<Option<…>>` — each slot has its own mutual-exclusion
primitive.  The table below records, for each command handler, which of
the two mutexes its body acquires and which slots it reads or writes,
straight from the source. -/

/-- The two shared slots. -/
inductive Slot where
  | sysSlot
  | windowSlot
deriving DecidableEq

/-- Lock identifiers: `0` names the `sys` mutex, `1` the `window` mutex
(`lib.rs:58-59` — two distinct `Mutex` fields). -/
def guardOf : Slot → Nat
  | .sysSlot => 0
  | .windowSlot => 1

/-- Which mutexes a command handler acquires and which slots it touches. -/
structure CommandLocks where
  cmdName : String
  locks : List Nat
  accesses : List Slot
deriving DecidableEq

/-- Lock/access table of the six handlers, read off the source:
`start_blur` locks both mutexes (`lib.rs:67-68`) and touches both slots;
every other handler locks only the window mutex and touches only the
window slot (`lib.rs:121`, `138`, `165`, `186`, `204`). -/
def demoCommandLocks : List CommandLocks :=
  [ ⟨"start_blur", [guardOf .sysSlot, guardOf .windowSlot], [.sysSlot, .windowSlot]⟩
  , ⟨"stop_blur", [guardOf .windowSlot], [.windowSlot]⟩
  , ⟨"update_blur_parameters", [guardOf .windowSlot], [.windowSlot]⟩
  , ⟨"update_noise_parameters", [guardOf .windowSlot], [.windowSlot]⟩
  , ⟨"update_rain_parameters", [guardOf .windowSlot], [.windowSlot]⟩
  , ⟨"get_blur_fps", [guardOf .windowSlot], [.windowSlot]⟩ ]

/-- Counts the `blur_create_window` invocations in a trace. -/
def countCreate (t : List NativeCall) : Nat :=
  t.countP fun c => match c with
    | .createWindow _ _ _ => true
    | _ => false

/-- Decidable equality for `Except` results, so that concrete runs of the
embedded operations can be checked by evaluation. -/
instance {ε α : Type} [DecidableEq ε] [DecidableEq α] : DecidableEq (Except ε α) := fun x y =>
  match x, y with
  | .error a, .error b =>
    if h : a = b then .isTrue (by rw [h]) else .isFalse (by simp [h])
  | .error _, .ok _ => .isFalse (by simp)
  | .ok _, .error _ => .isFalse (by simp)
  | .ok a, .ok b =>
    if h : a = b then .isTrue (by rw [h]) else .isFalse (by simp [h])

/-! ## Concrete oracles and states used by witnesses and counterexamples -/

/-- A benign oracle: init and create succeed, all codes `Ok`. -/
def oracleA : NativeOracle :=
  { initResult := 3, lastError := none, createWindowResult := 7
    startCode := .ok, stopCode := .ok, setPresetCode := .ok, setPipelineCode := .ok
    setEffectTypeCode := .ok, setStrengthCode := .ok, setBlurParamCode := .ok
    setTintColorCode := .ok, setNoiseCode := .ok, setRainCode := .ok
    fpsValue := ⟨0x42700000⟩ }

/-- Oracle whose `blur_start` reports `InvalidHandle` while everything else
succeeds. -/
def oracleStartFails : NativeOracle := { oracleA with startCode := .invalidHandle }

/-- Oracle whose `blur_init` returns null with a last-error string set. -/
def oracleInitFails : NativeOracle :=
  { oracleA with initResult := 0, lastError := some "device lost" }

/-! ## C3 -/

/-- C3: a pipeline payload with an embedded NUL byte is rejected locally
with `InvalidParameter` and zero native calls; any payload without one
leads to exactly one native `blur_set_pipeline` call whose code alone
determines the result — the NUL check is the only local validation. -/
theorem C3_pipeline_nul_rejected (o : NativeOracle) (w : BlurWindow) (jsonBytes : List Nat) :
    (jsonBytes.contains 0 = true →
      BlurWindow.set_pipeline o w jsonBytes = (.error .invalidParameter, [])) ∧
    (jsonBytes.contains 0 = false →
      (BlurWindow.set_pipeline o w jsonBytes).2 = [.setPipeline w.handle jsonBytes] ∧
      (BlurWindow.set_pipeline o w jsonBytes).1 =
        if o.setPipelineCode = .ok then .ok () else .error o.setPipelineCode) := by
  constructor
  · intro h
    have hm : (0 : Nat) ∈ jsonBytes := by simpa using h
    simp [BlurWindow.set_pipeline, hm]
  · intro h
    have hm : (0 : Nat) ∉ jsonBytes := by simpa using h
    simp [BlurWindow.set_pipeline, hm]

/-- C3 witness: the payload bytes `[104, 0, 105]` contain a NUL and are
rejected with no native call. -/
theorem C3_pipeline_nul_rejected_witness :
    ([104, 0, 105] : List Nat).contains 0 = true ∧
    BlurWindow.set_pipeline oracleA ⟨7⟩ [104, 0, 105] = (.error .invalidParameter, []) :=
  ⟨by decide, (C3_pipeline_nul_rejected oracleA ⟨7⟩ [104, 0, 105]).1 (by decide)⟩

/-! ## C4 -/

/-- C4: when the native init returns a null handle, `BlurSystem::new` fails
and the detail is the engine's last-error string when present, the generic
message otherwise; when it returns a non-null handle, it succeeds wrapping
exactly that handle. -/
theorem C4_system_init (o : NativeOracle) :
    (o.initResult = 0 →
      (BlurSystem.new o).1 =
        .error (o.lastError.getD "Failed to initialize blur system")) ∧
    (o.initResult ≠ 0 →
      (BlurSystem.new o).1 = .ok ⟨o.initResult⟩ ∧
      ∀ s, (BlurSystem.new o).1 = .ok s → s.handle ≠ 0) := by
  constructor
  · intro h
    cases he : o.lastError <;> simp [BlurSystem.new, h, he]
  · intro h
    constructor
    · simp [BlurSystem.new, h]
    · intro s hs
      simp [BlurSystem.new, h] at hs
      simp [← hs, h]

/-- C4 witness: with a null init result and last error "device lost", the
failure detail is exactly that string. -/
theorem C4_system_init_witness :
    oracleInitFails.initResult = 0 ∧
    (BlurSystem.new oracleInitFails).1 = .error "device lost" :=
  ⟨rfl, (C4_system_init oracleInitFails).1 rfl⟩

/-! ## C8 -/

/-- C8: `stop_blur` with a session present issues the native stop call then
the native destroy call on that session's handle and clears the window
slot; with no session it makes no native call and changes nothing. -/
theorem C8_stop_blur (st : DemoState) :
    (∀ w, st.window = some w →
      stop_blur st = ({ sys := st.sys, window := none }, [.stop w, .destroyWindow w])) ∧
    (st.window = none → stop_blur st = (st, [])) := by
  constructor
  · intro w hw
    simp [stop_blur, hw]
  · intro hw
    simp [stop_blur, hw]

/-- C8 witness: from a state holding window 5, `stop_blur` stops then
destroys handle 5 and empties the window slot. -/
theorem C8_stop_blur_witness :
    stop_blur ⟨some 3, some 5⟩ =
      ({ sys := some 3, window := none }, [.stop 5, .destroyWindow 5]) :=
  (C8_stop_blur ⟨some 3, some 5⟩).1 5 rfl

/-! ## C10 -/

/-- Whether a trace contains a `blur_set_rain_drop_size` call. -/
def hasRainDropSizeCall (t : List NativeCall) : Bool :=
  t.any fun c => match c with
    | .setRainDropSize _ _ _ => true
    | _ => false

/-- Whether a trace contains a `blur_set_rain_intensity` call. -/
def hasRainIntensityCall (t : List NativeCall) : Bool :=
  t.any fun c => match c with
    | .setRainIntensity _ _ => true
    | _ => false

/-- Whether a trace contains a `blur_set_rain_drop_speed` call. -/
def hasRainDropSpeedCall (t : List NativeCall) : Bool :=
  t.any fun c => match c with
    | .setRainDropSpeed _ _ => true
    | _ => false

/-- Whether a trace contains a `blur_set_rain_refraction` call. -/
def hasRainRefractionCall (t : List NativeCall) : Bool :=
  t.any fun c => match c with
    | .setRainRefraction _ _ => true
    | _ => false

/-- Whether a trace contains a `blur_set_rain_trail_length` call. -/
def hasRainTrailLengthCall (t : List NativeCall) : Bool :=
  t.any fun c => match c with
    | .setRainTrailLength _ _ => true
    | _ => false

/-- C10: with a session present, `update_rain_parameters` issues the native
drop-size call exactly when both `min_size` and `max_size` are supplied
(so supplying only one of them yields no drop-size call), while each of
the other four rain fields is applied exactly when it alone is supplied,
independently of every other field. -/
theorem C10_rain_drop_size_pairing (st : DemoState) (w : Nat)
    (i ds r tl mn mx : Option F32) (hw : st.window = some w) :
    hasRainDropSizeCall (update_rain_parameters st i ds r tl mn mx).2 =
      (mn.isSome && mx.isSome) ∧
    hasRainIntensityCall (update_rain_parameters st i ds r tl mn mx).2 = i.isSome ∧
    hasRainDropSpeedCall (update_rain_parameters st i ds r tl mn mx).2 = ds.isSome ∧
    hasRainRefractionCall (update_rain_parameters st i ds r tl mn mx).2 = r.isSome ∧
    hasRainTrailLengthCall (update_rain_parameters st i ds r tl mn mx).2 = tl.isSome := by
  cases i <;> cases ds <;> cases r <;> cases tl <;> cases mn <;> cases mx <;>
    simp [update_rain_parameters, hw, optCall, hasRainDropSizeCall,
      hasRainIntensityCall, hasRainDropSpeedCall, hasRainRefractionCall,
      hasRainTrailLengthCall]

/-- C10 witness: with window 5 active, supplying intensity and only the
minimum drop size yields the intensity call but no drop-size call. -/
theorem C10_rain_drop_size_pairing_witness :
    hasRainDropSizeCall
      (update_rain_parameters ⟨some 3, some 5⟩ (some ⟨1⟩) none none none (some ⟨2⟩) none).2
      = false ∧
    hasRainIntensityCall
      (update_rain_parameters ⟨some 3, some 5⟩ (some ⟨1⟩) none none none (some ⟨2⟩) none).2
      = true :=
  ⟨(C10_rain_drop_size_pairing ⟨some 3, some 5⟩ 5 (some ⟨1⟩) none none none (some ⟨2⟩) none rfl).1,
   (C10_rain_drop_size_pairing ⟨some 3, some 5⟩ 5 (some ⟨1⟩) none none none (some ⟨2⟩) none rfl).2.1⟩

/-! ## C9 -/

/-- C9: every command preserves the invariant that each shared slot is
empty or holds a non-null handle (only checked-non-null native results are
ever stored), and `stop_blur` leaves the window slot empty whatever the
native layer reports. -/
theorem C9_slots_nonnull (o : NativeOracle) (st : DemoState) (c : DemoCommand)
    (hs : stateInv st) :
    stateInv (demoStep o st c) ∧ (stop_blur st).1.window = none := by
  have hstop : (stop_blur st).1.window = none := by
    cases hw : st.window <;> simp [stop_blur, hw]
  refine ⟨?_, hstop⟩
  obtain ⟨hsys, hwin⟩ := hs
  cases c with
  | startBlur et =>
    simp only [demoStep]
    cases hw : st.window with
    | some w => simpa [start_blur, hw] using ⟨hsys, hwin⟩
    | none =>
      cases hsy : st.sys with
      | some sys =>
        by_cases hcw : o.createWindowResult = 0 <;>
          · refine ⟨?_, ?_⟩ <;>
              intro h hh <;>
              simp [start_blur, startBlurCreate, hw, hsy, hcw] at hh <;>
              first
                | (exact hsys h (by rw [hsy, hh]))
                | (exact hwin h (by rw [hw, hh]))
                | (omega)
      | none =>
        by_cases hin : o.initResult = 0
        · refine ⟨?_, ?_⟩ <;>
            intro h hh <;>
            simp [start_blur, startBlurCreate, hw, hsy, hin] at hh
        · by_cases hcw : o.createWindowResult = 0 <;>
            · refine ⟨?_, ?_⟩ <;>
                intro h hh <;>
                simp [start_blur, startBlurCreate, hw, hsy, hin, hcw] at hh <;>
                first
                  | (subst hh; exact hin)
                  | (subst hh; exact hcw)
  | stopBlur =>
    refine ⟨?_, ?_⟩
    · intro h hh
      cases hw : st.window <;>
        · simp [demoStep, stop_blur, hw] at hh
          exact hsys h hh
    · intro h hh
      cases hw : st.window <;> simp [demoStep, stop_blur, hw] at hh
  | updateBlurParameters et s p col =>
    cases hw : st.window <;>
      simpa [demoStep, update_blur_parameters, hw] using ⟨hsys, hwin⟩
  | updateNoiseParameters i s sp t =>
    cases hw : st.window <;>
      simpa [demoStep, update_noise_parameters, hw] using ⟨hsys, hwin⟩
  | updateRainParameters i ds r tl mn mx =>
    cases hw : st.window <;>
      simpa [demoStep, update_rain_parameters, hw] using ⟨hsys, hwin⟩
  | getBlurFps =>
    exact ⟨hsys, hwin⟩

/-- C9 witness: from the empty state (which satisfies the invariant), a
successful `start_blur` leaves both slots non-null and `stop_blur` from
that state leaves the window slot empty. -/
theorem C9_slots_nonnull_witness :
    stateInv (demoStep oracleA ⟨none, none⟩ (.startBlur none)) ∧
    (stop_blur (⟨none, none⟩ : DemoState)).1.window = none :=
  C9_slots_nonnull oracleA ⟨none, none⟩ (.startBlur none)
    ⟨fun h hh => by simp at hh, fun h hh => by simp at hh⟩

/-! ## C2 -/

/-- C2 counterexample: from a state whose window slot is already occupied
(reachable by an earlier `ensureStarted`), a pair of `start_blur` calls
with no intervening `stop_blur` has a successful first call yet makes zero
native window-create calls across the pair — not exactly one. -/
theorem C2_counterexample :
    (start_blur oracleA ⟨some 3, some 5⟩ none).1 = .ok () ∧
    countCreate ((start_blur oracleA ⟨some 3, some 5⟩ none).2.2 ++
      (start_blur oracleA (start_blur oracleA ⟨some 3, some 5⟩ none).2.1 none).2.2) = 0 := by
  decide

/-- C2 amended: if the window slot is empty before the first `start_blur`
call and that call succeeds, then a second call with no intervening
`stop_blur` succeeds immediately, makes no native call, changes no state,
and exactly one native window-create call is made across the pair (without
the empty-slot precondition the pair can make zero create calls). -/
theorem C2_start_idempotent (o : NativeOracle) (st : DemoState) (et1 et2 : Option Int)
    (hw : st.window = none) (h1 : (start_blur o st et1).1 = .ok ()) :
    (start_blur o (start_blur o st et1).2.1 et2).1 = .ok () ∧
    (start_blur o (start_blur o st et1).2.1 et2).2.2 = [] ∧
    (start_blur o (start_blur o st et1).2.1 et2).2.1 = (start_blur o st et1).2.1 ∧
    countCreate ((start_blur o st et1).2.2 ++
      (start_blur o (start_blur o st et1).2.1 et2).2.2) = 1 := by
  have hcw : ¬ o.createWindowResult = 0 := by
    intro hcw
    cases hsy : st.sys with
    | some sys => simp [start_blur, startBlurCreate, hw, hsy, hcw] at h1
    | none =>
      by_cases hin : o.initResult = 0 <;>
        simp [start_blur, startBlurCreate, hw, hsy, hin, hcw] at h1
  have hfst : (start_blur o st et1).2.1.window = some o.createWindowResult ∧
      countCreate (start_blur o st et1).2.2 = 1 := by
    cases hsy : st.sys with
    | some sys =>
      cases et1 <;>
        simp [start_blur, startBlurCreate, hw, hsy, hcw, effectCalls, countCreate]
    | none =>
      by_cases hin : o.initResult = 0
      · simp [start_blur, hw, hsy, hin] at h1
      · cases et1 <;>
          simp [start_blur, startBlurCreate, hw, hsy, hin, hcw, effectCalls, countCreate]
  have hsnd : start_blur o (start_blur o st et1).2.1 et2 =
      (.ok (), (start_blur o st et1).2.1, []) := by
    rw [start_blur.eq_def]
    rw [hfst.1]
  refine ⟨?_, ?_, ?_, ?_⟩
  · rw [hsnd]
  · rw [hsnd]
  · rw [hsnd]
  · rw [hsnd]
    simpa [countCreate] using hfst.2

/-- C2 witness: from the empty state under the benign oracle the first call
succeeds, and the pair of calls creates exactly one window. -/
theorem C2_start_idempotent_witness :
    ((⟨none, none⟩ : DemoState).window = none ∧
      (start_blur oracleA ⟨none, none⟩ none).1 = .ok ()) ∧
    countCreate ((start_blur oracleA ⟨none, none⟩ none).2.2 ++
      (start_blur oracleA (start_blur oracleA ⟨none, none⟩ none).2.1 (some 2)).2.2) = 1 :=
  ⟨⟨rfl, by decide⟩,
    (C2_start_idempotent oracleA ⟨none, none⟩ none (some 2) rfl (by decide)).2.2.2⟩

/-! ## C1 -/

/-- C1 counterexample: under an oracle whose `blur_start` reports
`InvalidHandle`, `start_blur` from the empty state issues the native start
call yet returns `Ok` — the non-Ok code of a listed operation (start,
inside the guard command ensureStarted) is discarded, not surfaced. -/
theorem C1_counterexample :
    oracleStartFails.startCode ≠ BlurErrorCode.ok ∧
    NativeCall.start 7 ∈ (start_blur oracleStartFails ⟨none, none⟩ none).2.2 ∧
    (start_blur oracleStartFails ⟨none, none⟩ none).1 = .ok () := by
  decide

/-- C1 amended: the library layer does surface every non-Ok native code —
`BlurWindow::start`, `stop`, `set_preset` and `set_pipeline` (on a
NUL-free payload) succeed exactly when the native code is `Ok` and
otherwise return that code.  The shell guard commands do not: the result
of `start_blur` depends only on the nullity of the native init and
window-create results, so the codes returned by `blur_start` and
`blur_set_effect_type` inside it are discarded, and `stop_blur` and the
parameter-update handlers return unit, discarding every native code. -/
theorem C1_error_propagation (o : NativeOracle) (w : BlurWindow)
    (p : BlurQualityPreset) (jsonBytes : List Nat) (st : DemoState) (et : Option Int) :
    ((BlurWindow.start o w).1 = .ok () ↔ o.startCode = .ok) ∧
    (o.startCode ≠ .ok → (BlurWindow.start o w).1 = .error o.startCode) ∧
    ((BlurWindow.stop o w).1 = .ok () ↔ o.stopCode = .ok) ∧
    (o.stopCode ≠ .ok → (BlurWindow.stop o w).1 = .error o.stopCode) ∧
    ((BlurWindow.set_preset o w p).1 = .ok () ↔ o.setPresetCode = .ok) ∧
    (o.setPresetCode ≠ .ok → (BlurWindow.set_preset o w p).1 = .error o.setPresetCode) ∧
    (jsonBytes.contains 0 = false → o.setPipelineCode ≠ .ok →
      (BlurWindow.set_pipeline o w jsonBytes).1 = .error o.setPipelineCode) ∧
    (∀ o2 : NativeOracle, o2.initResult = o.initResult →
      o2.createWindowResult = o.createWindowResult →
      (start_blur o2 st et).1 = (start_blur o st et).1) := by
  refine ⟨?_, ?_, ?_, ?_, ?_, ?_, ?_, ?_⟩
  · by_cases h : o.startCode = .ok <;> simp [BlurWindow.start, h]
  · intro h; simp [BlurWindow.start, h]
  · by_cases h : o.stopCode = .ok <;> simp [BlurWindow.stop, h]
  · intro h; simp [BlurWindow.stop, h]
  · by_cases h : o.setPresetCode = .ok <;> simp [BlurWindow.set_preset, h]
  · intro h; simp [BlurWindow.set_preset, h]
  · intro hnul h
    have hm : (0 : Nat) ∉ jsonBytes := by simpa using hnul
    simp [BlurWindow.set_pipeline, hm, h]
  · intro o2 hinit hcreate
    cases hw : st.window with
    | some _ => simp [start_blur, hw]
    | none =>
      cases hsy : st.sys with
      | some sys =>
        by_cases hcw : o.createWindowResult = 0 <;>
          simp [start_blur, startBlurCreate, hw, hsy, hinit, hcreate, hcw]
      | none =>
        by_cases hin : o.initResult = 0
        · simp [start_blur, hw, hsy, hinit, hin]
        · by_cases hcw : o.createWindowResult = 0 <;>
            simp [start_blur, startBlurCreate, hw, hsy, hinit, hcreate, hin, hcw]

/-- C1 witness: a concrete failing start is surfaced by the library layer;
the shell guard result ignores the differing start code. -/
theorem C1_error_propagation_witness :
    oracleStartFails.startCode ≠ BlurErrorCode.ok ∧
    (BlurWindow.start oracleStartFails ⟨7⟩).1 = .error BlurErrorCode.invalidHandle :=
  ⟨by decide,
    (C1_error_propagation oracleStartFails ⟨7⟩ .balanced [] ⟨none, none⟩ none).2.1
      (by decide)⟩

/-! ## C5 -/

/-- C5 counterexample: a window value holding the null handle receives a
start call that issues one native call (not zero) and, with the native
layer answering `Ok`, succeeds instead of failing deterministically — the
layer performs no local null-handle check. -/
theorem C5_counterexample :
    (BlurWindow.start oracleA ⟨0⟩).2 = [NativeCall.start 0] ∧
    (BlurWindow.start oracleA ⟨0⟩).1 = .ok () := by
  decide

/-- C5 amended: the session operations perform no local null check —
start, stop, set_preset and fps each issue exactly one native call on
whatever handle the session holds (set_pipeline likewise on a NUL-free
payload), delegating failure detection to the native layer; a session
wrapping a null handle is never produced (`create_window` fails on a null
native result without constructing one); and in the shell variant every
parameter/fps command with an empty window slot performs zero native
calls. -/
theorem C5_no_null_guard (o : NativeOracle) (w : BlurWindow)
    (p : BlurQualityPreset) (jsonBytes : List Nat) (st : DemoState)
    (et : Option Int) (s pa : Option F32) (col : Option (F32 × F32 × F32 × F32))
    (ni nsc nsp : Option F32) (nt : Option Int)
    (ri ds rr tl mn mx : Option F32) :
    (BlurWindow.start o w).2 = [.start w.handle] ∧
    (BlurWindow.stop o w).2 = [.stop w.handle] ∧
    (BlurWindow.set_preset o w p).2 = [.setPreset w.handle p] ∧
    (BlurWindow.get_fps o w).2 = [.getFps w.handle] ∧
    (jsonBytes.contains 0 = false →
      (BlurWindow.set_pipeline o w jsonBytes).2 = [.setPipeline w.handle jsonBytes]) ∧
    (∀ (sys : BlurSystem) (owner : Nat) (x y wd h : Int) (bw : BlurWindow),
      (BlurSystem.create_window o sys owner x y wd h).1 = .ok bw → bw.handle ≠ 0) ∧
    (st.window = none →
      (update_blur_parameters st et s pa col).2 = [] ∧
      (update_noise_parameters st ni nsc nsp nt).2 = [] ∧
      (update_rain_parameters st ri ds rr tl mn mx).2 = [] ∧
      (get_blur_fps o st).2 = []) := by
  refine ⟨rfl, rfl, rfl, rfl, ?_, ?_, ?_⟩
  · intro hnul
    have hm : (0 : Nat) ∉ jsonBytes := by simpa using hnul
    simp [BlurWindow.set_pipeline, hm]
  · intro sys owner x y wd h bw hok
    by_cases hcw : o.createWindowResult = 0
    · simp [BlurSystem.create_window, hcw] at hok
    · simp [BlurSystem.create_window, hcw] at hok
      rw [← hok]
      exact hcw
  · intro hw
    exact ⟨by simp [update_blur_parameters, hw],
      by simp [update_noise_parameters, hw],
      by simp [update_rain_parameters, hw],
      by simp [get_blur_fps, hw]⟩

/-- C5 witness: on a NUL-free payload exactly one native pipeline call is
made on the session's (here null) handle, and with an empty window slot
the blur-parameter update makes no native call. -/
theorem C5_no_null_guard_witness :
    (BlurWindow.set_pipeline oracleA ⟨0⟩ [104, 105]).2 = [.setPipeline 0 [104, 105]] ∧
    (update_blur_parameters ⟨none, none⟩ (some 1) none none none).2 = [] :=
  ⟨(C5_no_null_guard oracleA ⟨0⟩ .balanced [104, 105] ⟨none, none⟩
      (some 1) none none none none none none none none none none none none none).2.2.2.2.1
      (by decide),
   ((C5_no_null_guard oracleA ⟨0⟩ .balanced [104, 105] ⟨none, none⟩
      (some 1) none none none none none none none none none none none none none).2.2.2.2.2.2
      rfl).1⟩

/-! ## C6 -/

/-- C6 counterexample: the `sys` slot and the `window` slot are guarded by
two distinct mutual-exclusion primitives (`BlurState` declares one `Mutex`
per slot), not by one single primitive covering both. -/
theorem C6_counterexample : guardOf Slot.sysSlot ≠ guardOf Slot.windowSlot := by
  decide

/-- C6 amended: each slot has its own mutex; every handler touches a slot
only while holding that slot's mutex; the system slot is touched only by
`start_blur`, which holds both mutexes for its whole body — so the
lazy-init-then-window-creation sequence is still mutually exclusive with
every other command's access to either slot, just not via one shared
primitive. -/
theorem C6_lock_layout :
    (guardOf Slot.sysSlot == guardOf Slot.windowSlot) = false ∧
    (demoCommandLocks.all fun c =>
      c.accesses.all fun s => c.locks.contains (guardOf s)) = true ∧
    (demoCommandLocks.all fun c =>
      !(c.accesses.contains Slot.sysSlot) || (c.cmdName == "start_blur")) = true ∧
    (demoCommandLocks.all fun c =>
      (c.cmdName != "start_blur") ||
        (c.locks.contains (guardOf Slot.sysSlot) &&
          c.locks.contains (guardOf Slot.windowSlot))) = true := by
  decide

/-! ## C7 -/

/-- The configuration the spec says system initialization accepts: a
logging toggle, an optional log file path (absent = default console sink)
and a default quality preset. -/
structure SpecInitConfig where
  loggingEnabled : Bool
  logFilePath : Option (List Nat)
  defaultPreset : BlurQualityPreset
deriving DecidableEq, Repr

/-- Modelled from the spec (the claimed contract, for comparison with the
source): the native init call made with exactly the values of a
caller-supplied `SpecInitConfig`, converted to the ABI shapes. -/
def specInitNativeCall (cfg : SpecInitConfig) : NativeCall :=
  .init { enable_logging := if cfg.loggingEnabled then 1 else 0
          log_path := cfg.logFilePath
          default_preset := cfg.defaultPreset.toOrdinal }

/-- C7 counterexample: `BlurSystem::new` takes no configuration — its
native init call always carries the fixed options — so for a caller
configuration with logging disabled the init call the code makes is not
the one the claimed contract requires. -/
theorem C7_counterexample :
    (BlurSystem.new oracleA).2 = [NativeCall.init safeSysOpts] ∧
    NativeCall.init safeSysOpts ≠ specInitNativeCall ⟨false, none, .minimal⟩ := by
  decide

/-- C7 amended: system initialization accepts no caller-supplied
configuration.  `BlurSystem::new` always makes its native init call with
the fixed values logging = on, null log path (console sink), preset
Balanced (ordinal 1); the shell variant's lazy init inside `start_blur`
always uses logging = on, null log path, preset ordinal 0. -/
theorem C7_fixed_init_config (o : NativeOracle) (st : DemoState) (et : Option Int) :
    (BlurSystem.new o).2.head? = some (.init safeSysOpts) ∧
    safeSysOpts = { enable_logging := 1, log_path := none, default_preset := 1 } ∧
    (st.window = none → st.sys = none →
      (start_blur o st et).2.2.head? = some (.init demoSysOpts)) ∧
    demoSysOpts = { enable_logging := 1, log_path := none, default_preset := 0 } := by
  refine ⟨?_, rfl, ?_, rfl⟩
  · by_cases h : o.initResult = 0
    · cases he : o.lastError <;> simp [BlurSystem.new, h, he]
    · simp [BlurSystem.new, h]
  · intro hw hsy
    by_cases hin : o.initResult = 0
    · simp [start_blur, hw, hsy, hin]
    · by_cases hcw : o.createWindowResult = 0 <;>
        simp [start_blur, startBlurCreate, hw, hsy, hin, hcw]

/-- C7 witness: from the empty state the shell's lazy init call carries the
fixed demo options. -/
theorem C7_fixed_init_config_witness :
    (start_blur oracleA ⟨none, none⟩ none).2.2.head? = some (.init demoSysOpts) :=
  (C7_fixed_init_config oracleA ⟨none, none⟩ none).2.2.1 rfl rfl
